import Mathlib

/-!
Shallow embedding of the address/credential reconciliation core found in
`src/components/addresses/src/address.rs`: the canonical record type
(`Address`), validation (`check_valid`), the field-level diff engine
(`Address.delta` / `Address.apply_delta`), the delta merge
(`AddressDelta.merge` with its per-field collision policy), the
timestamp sanitizer (`deserialize_timestamp`), and the reconciliation
context (`SyncAddressData`) with its slot setters.

Rust `i64` values are modelled as `Int` (no claim here depends on
wrap-around), `Guid` as `String`, and `Option<String>` as
`Option String`.  Rust panics in the slot setters are modelled as the
error branch of `Except`.
-/

/-- Canonical credential record, a direct translation of the Rust struct
`Address`.  Field order and names follow the source. -/
structure Address where
  guid : String
  hostname : String
  form_submit_url : Option String
  http_realm : Option String
  username : String
  password : String
  username_field : String
  password_field : String
  time_created : Int
  time_password_changed : Int
  time_last_used : Int
  times_used : Int
deriving DecidableEq, Repr

/-- Validation failures, the `InvalidAddress` variants raised by
`Address::check_valid`, in source order. -/
inductive InvalidAddress where
  | EmptyHostname
  | EmptyPassword
  | BothTargets
  | NoTarget
deriving DecidableEq, Repr

/-- Translation of `Address::check_valid`: the four guards run in source
order and the first failing one wins; `throw!` becomes the error branch. -/
def Address.check_valid (a : Address) : Except InvalidAddress Unit :=
  if a.hostname.isEmpty then Except.error InvalidAddress.EmptyHostname
  else if a.password.isEmpty then Except.error InvalidAddress.EmptyPassword
  else if a.form_submit_url.isSome && a.http_realm.isSome then
    Except.error InvalidAddress.BothTargets
  else if a.form_submit_url.isNone && a.http_realm.isNone then
    Except.error InvalidAddress.NoTarget
  else Except.ok ()

/-- Translation of the Rust struct `AddressDelta`: a sparse field-level
diff; `None` means "no change".  `times_used` is the commutative
increment. -/
structure AddressDelta where
  hostname : Option String
  password : Option String
  username : Option String
  http_realm : Option String
  form_submit_url : Option String
  time_created : Option Int
  time_last_used : Option Int
  time_password_changed : Option Int
  password_field : Option String
  username_field : Option String
  times_used : Int
deriving DecidableEq, Repr

/-- Translation of `AddressDelta::default()`: every optional slot absent
and a zero `times_used` increment. -/
def AddressDelta.default : AddressDelta :=
  { hostname := none
    password := none
    username := none
    http_realm := none
    form_submit_url := none
    time_created := none
    time_last_used := none
    time_password_changed := none
    password_field := none
    username_field := none
    times_used := 0 }

/-- Translation of `Address::delta(self, older)`.  Each Rust `if` writes an
independent field of the initially-default delta, so the whole body is one
record literal.  Sentinel-optional fields emit
`Some(self.field.clone().unwrap_or_default())` when the two records
differ; timestamps are emitted only when the newer value is positive and
differs; `times_used` stores the increment `self - older` guarded by
`self.times_used > 0 && self.times_used != older.times_used`. -/
def Address.delta (self older : Address) : AddressDelta :=
  { hostname := if self.hostname ≠ older.hostname then some self.hostname else none
    password := if self.password ≠ older.password then some self.password else none
    username := if self.username ≠ older.username then some self.username else none
    http_realm :=
      if self.http_realm ≠ older.http_realm then some (self.http_realm.getD (""))
      else none
    form_submit_url :=
      if self.form_submit_url ≠ older.form_submit_url then
        some (self.form_submit_url.getD (""))
      else none
    time_created :=
      if 0 < self.time_created ∧ self.time_created ≠ older.time_created then
        some self.time_created
      else none
    time_last_used :=
      if 0 < self.time_last_used ∧ self.time_last_used ≠ older.time_last_used then
        some self.time_last_used
      else none
    time_password_changed :=
      if 0 < self.time_password_changed ∧
          self.time_password_changed ≠ older.time_password_changed then
        some self.time_password_changed
      else none
    password_field :=
      if self.password_field ≠ older.password_field then some self.password_field
      else none
    username_field :=
      if self.username_field ≠ older.username_field then some self.username_field
      else none
    times_used :=
      if 0 < self.times_used ∧ self.times_used ≠ older.times_used then
        self.times_used - older.times_used
      else 0 }

/-- Translation of `Address::apply_delta`: overwrite fields replace the
record value when present; sentinel-optional fields use `Some("")` to
clear the option; `times_used` is incremented, not replaced. -/
def Address.apply_delta (a : Address) (delta : AddressDelta) : Address :=
  { a with
    hostname := delta.hostname.getD a.hostname
    password := delta.password.getD a.password
    username := delta.username.getD a.username
    time_created := delta.time_created.getD a.time_created
    time_last_used := delta.time_last_used.getD a.time_last_used
    time_password_changed := delta.time_password_changed.getD a.time_password_changed
    password_field := delta.password_field.getD a.password_field
    username_field := delta.username_field.getD a.username_field
    http_realm :=
      match delta.http_realm with
      | none => a.http_realm
      | some realm => if realm.isEmpty then none else some realm
    form_submit_url :=
      match delta.form_submit_url with
      | none => a.form_submit_url
      | some url => if url.isEmpty then none else some url
    times_used := a.times_used + delta.times_used }

/-- Names of the non-commutative delta fields, in the order
`AddressDelta::merge` processes them; used to report collision warnings
(the Rust code logs `stringify!(field)`). -/
inductive DeltaField where
  | hostname
  | password
  | username
  | http_realm
  | form_submit_url
  | time_created
  | time_last_used
  | time_password_changed
  | password_field
  | username_field
deriving DecidableEq, Repr

/-- Translation of the Rust macro `merge_field!`: returns the merged slot
value together with a flag saying whether a collision warning was logged.
When `b` carries the field and `merged` already does, the collision is
resolved toward `b` exactly when `prefer_b` holds. -/
def merge_field {α : Type} (merged b : Option α) (prefer_b : Bool) : Option α × Bool :=
  match b with
  | none => (merged, false)
  | some v =>
    match merged with
    | some _ => (if prefer_b then some v else merged, true)
    | none => (some v, false)

/-- Helper describing the warning emitted for one field: the singleton log
entry when the collision flag is set. -/
def warn (collided : Bool) (f : DeltaField) : List DeltaField :=
  if collided then [f] else []

/-- Translation of `AddressDelta::merge(self, b, b_is_newer)`: every
non-commutative field goes through `merge_field` in source order, the
commutative `times_used` is summed, and the second component collects the
collision warnings the Rust code sends to the log. -/
def AddressDelta.merge (a b : AddressDelta) (b_is_newer : Bool) :
    AddressDelta × List DeltaField :=
  let mh := merge_field a.hostname b.hostname b_is_newer
  let mp := merge_field a.password b.password b_is_newer
  let mu := merge_field a.username b.username b_is_newer
  let mr := merge_field a.http_realm b.http_realm b_is_newer
  let mf := merge_field a.form_submit_url b.form_submit_url b_is_newer
  let mtc := merge_field a.time_created b.time_created b_is_newer
  let mtl := merge_field a.time_last_used b.time_last_used b_is_newer
  let mtp := merge_field a.time_password_changed b.time_password_changed b_is_newer
  let mpf := merge_field a.password_field b.password_field b_is_newer
  let muf := merge_field a.username_field b.username_field b_is_newer
  ({ hostname := mh.1
     password := mp.1
     username := mu.1
     http_realm := mr.1
     form_submit_url := mf.1
     time_created := mtc.1
     time_last_used := mtl.1
     time_password_changed := mtp.1
     password_field := mpf.1
     username_field := muf.1
     times_used := a.times_used + b.times_used },
   warn mh.2 DeltaField.hostname ++ warn mp.2 DeltaField.password ++
     warn mu.2 DeltaField.username ++ warn mr.2 DeltaField.http_realm ++
     warn mf.2 DeltaField.form_submit_url ++ warn mtc.2 DeltaField.time_created ++
     warn mtl.2 DeltaField.time_last_used ++
     warn mtp.2 DeltaField.time_password_changed ++
     warn mpf.2 DeltaField.password_field ++ warn muf.2 DeltaField.username_field)

/-- Translation of the Rust enum `SyncStatus`. -/
inductive SyncStatus where
  | Synced
  | Changed
  | New
deriving DecidableEq, Repr

/-- Translation of `SyncStatus::from_u8`: only the ordinals 0, 1, 2 decode;
anything else is the `BadSyncStatus` error. -/
def SyncStatus.from_u8 (v : Nat) : Except Nat SyncStatus :=
  match v with
  | 0 => Except.ok SyncStatus.Synced
  | 1 => Except.ok SyncStatus.Changed
  | 2 => Except.ok SyncStatus.New
  | v => Except.error v

/-- Translation of the Rust struct `LocalAddress`; `SystemTime` is
modelled as milliseconds in an `Int`. -/
structure LocalAddress where
  address : Address
  sync_status : SyncStatus
  is_deleted : Bool
  local_modified : Int
deriving DecidableEq, Repr

/-- Translation of the Rust struct `MirrorAddress`; `ServerTimestamp` is
its wrapped `i64`. -/
structure MirrorAddress where
  address : Address
  is_overridden : Bool
  server_modified : Int
deriving DecidableEq, Repr

/-- Translation of the Rust struct `SyncAddressData`: the reconciliation
context pairing a guid with its optional local and mirror views and one
inbound snapshot (`none` meaning a server tombstone). -/
structure SyncAddressData where
  guid : String
  «local» : Option LocalAddress
  mirror : Option MirrorAddress
  inbound : Option Address × Int
deriving DecidableEq, Repr

/-- Identity-integrity violations: the two `panic!` sites of the Rust
macro `impl_address_setter`, modelled as error values.  A Rust panic
unwinds without completing the assignment, so the context is left
unchanged, which the `Except.error` branch reflects. -/
inductive PanicKind where
  | slotAlreadySet
  | guidMismatch
deriving DecidableEq, Repr

/-- Translation of `SyncAddressData::set_local` (macro
`impl_address_setter!(set_local, local, LocalAddress)`): panic when the
slot is occupied, panic when the record guid disagrees with the context
guid, otherwise store the record. -/
def SyncAddressData.set_local (s : SyncAddressData) (record : LocalAddress) :
    Except PanicKind SyncAddressData :=
  if s.«local».isSome then Except.error PanicKind.slotAlreadySet
  else if s.guid ≠ record.address.guid then Except.error PanicKind.guidMismatch
  else Except.ok { s with «local» := some record }

/-- Translation of `SyncAddressData::set_mirror` (macro
`impl_address_setter!(set_mirror, mirror, MirrorAddress)`). -/
def SyncAddressData.set_mirror (s : SyncAddressData) (record : MirrorAddress) :
    Except PanicKind SyncAddressData :=
  if s.mirror.isSome then Except.error PanicKind.slotAlreadySet
  else if s.guid ≠ record.address.guid then Except.error PanicKind.guidMismatch
  else Except.ok { s with mirror := some record }

/-- JSON values a payload timestamp slot can hold: null, a boolean, an
integer number, a string, or a composite (array/object).  Integer numbers
carry an unbounded `Int` so that out-of-range inputs such as
`18446732429235952000` are representable. -/
inductive JsonValue where
  | null
  | boolean (b : Bool)
  | num (n : Int)
  | str (s : String)
  | composite
deriving DecidableEq, Repr

/-- Deserialization failures of the external serde layer. -/
inductive DeError where
  | invalidType
  | invalidValue
deriving DecidableEq, Repr

/-- Smallest `i64`. -/
def i64Min : Int := -(2 ^ 63)

/-- Largest `i64`. -/
def i64Max : Int := 2 ^ 63 - 1

/-- Modelled from the spec: serde's `i64::deserialize`, the external
decoder `deserialize_timestamp` delegates to (the serde crate is outside
this repository).  It succeeds exactly on integer JSON numbers that fit
in an `i64`; strings, booleans, null, composites, and out-of-range
numbers fail. -/
def i64Deserialize (v : JsonValue) : Except DeError Int :=
  match v with
  | JsonValue.num n =>
    if i64Min ≤ n ∧ n ≤ i64Max then Except.ok n else Except.error DeError.invalidValue
  | _ => Except.error DeError.invalidType

/-- Translation of Rust `Result::unwrap_or_default` at type `i64` (default
0). -/
def unwrapOrZero (r : Except DeError Int) : Int :=
  match r with
  | Except.ok n => n
  | Except.error _ => 0

/-- Translation of the free function `deserialize_timestamp`:
`Ok(i64::deserialize(deserializer).unwrap_or_default().max(0))` — it
never returns an error. -/
def deserialize_timestamp (v : JsonValue) : Except DeError Int :=
  Except.ok (max (unwrapOrZero (i64Deserialize v)) 0)

/-- Decoding of one timestamp field of a payload: a missing field takes
the serde default 0 (`#[serde(default)]`), a present one goes through
`deserialize_timestamp` (which never fails). -/
def decode_timestamp_field (v : Option JsonValue) : Int :=
  match v with
  | none => 0
  | some j => unwrapOrZero (deserialize_timestamp j)

/-- Uniform field getter on deltas, used to state the per-field merge
policy once for all ten non-commutative fields. -/
def AddressDelta.field (d : AddressDelta) : DeltaField → Option (String ⊕ Int)
  | DeltaField.hostname => d.hostname.map Sum.inl
  | DeltaField.password => d.password.map Sum.inl
  | DeltaField.username => d.username.map Sum.inl
  | DeltaField.http_realm => d.http_realm.map Sum.inl
  | DeltaField.form_submit_url => d.form_submit_url.map Sum.inl
  | DeltaField.time_created => d.time_created.map Sum.inr
  | DeltaField.time_last_used => d.time_last_used.map Sum.inr
  | DeltaField.time_password_changed => d.time_password_changed.map Sum.inr
  | DeltaField.password_field => d.password_field.map Sum.inl
  | DeltaField.username_field => d.username_field.map Sum.inl

theorem isSome_map_eq {α β : Type} (g : α → β) (x : Option α) :
    (x.map g).isSome = x.isSome := by
  cases x <;> rfl

theorem merge_field_map {α β : Type} (g : α → β) (m b : Option α) (p : Bool) :
    ((merge_field m b p).1).map g = (merge_field (m.map g) (b.map g) p).1 := by
  cases m <;> cases b <;> cases p <;> simp [merge_field]

theorem merge_field_commutes (d1 d2 : AddressDelta) (p : Bool) (fld : DeltaField) :
    (d1.merge d2 p).1.field fld = (merge_field (d1.field fld) (d2.field fld) p).1 := by
  cases fld <;> simp [AddressDelta.field, AddressDelta.merge, merge_field_map]

theorem merge_field_spec {α : Type} (m b : Option α) (p : Bool) :
    (m.isSome = true → b.isSome = true →
      (merge_field m b true).1 = b ∧ (merge_field m b false).1 = m) ∧
    (b = none → (merge_field m b p).1 = m) ∧
    (m = none → (merge_field m b p).1 = b) := by
  cases m <;> cases b <;> simp [merge_field]

theorem merge_field_collided {α : Type} (m b : Option α) (p : Bool)
    (hm : m.isSome = true) (hb : b.isSome = true) : (merge_field m b p).2 = true := by
  cases m <;> cases b <;> simp_all [merge_field]

theorem merge_warns (d1 d2 : AddressDelta) (p : Bool) (fld : DeltaField)
    (h1 : (d1.field fld).isSome = true) (h2 : (d2.field fld).isSome = true) :
    fld ∈ (d1.merge d2 p).2 := by
  cases fld <;>
    simp only [AddressDelta.field, isSome_map_eq] at h1 h2 <;>
    simp [AddressDelta.merge, warn, merge_field_collided _ _ p h1 h2]

/-- C5: for all deltas `d1`, `d2` and both values of `b_is_newer`,
`merge(d1, d2, b_is_newer).times_used = d1.times_used + d2.times_used`;
the `times_used` field is summed regardless of the flag and of any other
field collisions. -/
theorem claim_C5 (d1 d2 : AddressDelta) (b_is_newer : Bool) :
    (d1.merge d2 b_is_newer).1.times_used = d1.times_used + d2.times_used := rfl

/-- C6: for every non-commutative field, a collision (both deltas carry
the field) resolves to `d2`'s value under `b_is_newer = true` and to
`d1`'s value under `b_is_newer = false`; a field present in only one
delta is taken as-is regardless of the flag. -/
theorem claim_C6 (d1 d2 : AddressDelta) (p : Bool) (fld : DeltaField) :
    ((d1.field fld).isSome = true → (d2.field fld).isSome = true →
      (d1.merge d2 true).1.field fld = d2.field fld ∧
      (d1.merge d2 false).1.field fld = d1.field fld) ∧
    (d2.field fld = none → (d1.merge d2 p).1.field fld = d1.field fld) ∧
    (d1.field fld = none → (d1.merge d2 p).1.field fld = d2.field fld) := by
  simp only [merge_field_commutes]
  exact merge_field_spec (d1.field fld) (d2.field fld) p

/-- Delta setting only `username_field := "user"`, the spec's collision
scenario. -/
def deltaUser : AddressDelta :=
  { AddressDelta.default with username_field := some ("user") }

/-- Delta setting only `username_field := "login"`, the spec's collision
scenario. -/
def deltaLogin : AddressDelta :=
  { AddressDelta.default with username_field := some ("login") }

theorem claim_C6_witness :
    (deltaUser.merge deltaLogin true).1.field DeltaField.username_field =
      deltaLogin.field DeltaField.username_field ∧
    (deltaUser.merge deltaLogin false).1.field DeltaField.username_field =
      deltaUser.field DeltaField.username_field :=
  (claim_C6 deltaUser deltaLogin true DeltaField.username_field).1 (by decide) (by decide)

/-- C10 (implicit): in `merge`, the three timestamp fields are ordinary
collision fields under the same last-writer-wins rule as overwrite
fields — the winning side's stored value is kept verbatim (no numeric
comparison, no summing) and a collision warning is emitted. -/
theorem claim_C10 (d1 d2 : AddressDelta) (p : Bool) (fld : DeltaField)
    (hts : fld = DeltaField.time_created ∨ fld = DeltaField.time_last_used ∨
      fld = DeltaField.time_password_changed)
    (h1 : (d1.field fld).isSome = true) (h2 : (d2.field fld).isSome = true) :
    (d1.merge d2 true).1.field fld = d2.field fld ∧
    (d1.merge d2 false).1.field fld = d1.field fld ∧
    fld ∈ (d1.merge d2 p).2 := by
  obtain ⟨hA, hB⟩ := (merge_field_spec (d1.field fld) (d2.field fld) p).1 h1 h2
  refine ⟨?_, ?_, merge_warns d1 d2 p fld h1 h2⟩
  · rw [merge_field_commutes]
    exact hA
  · rw [merge_field_commutes]
    exact hB

/-- Delta setting only `time_created := 100`. -/
def deltaTime1 : AddressDelta :=
  { AddressDelta.default with time_created := some (100 : Int) }

/-- Delta setting only `time_created := 200`. -/
def deltaTime2 : AddressDelta :=
  { AddressDelta.default with time_created := some (200 : Int) }

theorem claim_C10_witness :
    (deltaTime1.merge deltaTime2 true).1.field DeltaField.time_created =
      deltaTime2.field DeltaField.time_created ∧
    (deltaTime1.merge deltaTime2 false).1.field DeltaField.time_created =
      deltaTime1.field DeltaField.time_created ∧
    DeltaField.time_created ∈ (deltaTime1.merge deltaTime2 true).2 :=
  claim_C10 deltaTime1 deltaTime2 true DeltaField.time_created (Or.inl rfl)
    (by decide) (by decide)

/-- C1 (amended): for records `a`, `b` with the same guid,
`apply_delta(b, delta(a, b))` reproduces `a` on the overwrite fields
unconditionally; on a sentinel-optional field whenever `a`'s value there
is not the present-but-empty string `Some("")` (or the two records agree
on it, where the sentinel encoding is irrelevant); and on each timestamp
field whenever `a`'s value is strictly positive. -/
theorem claim_C1 (a b : Address) (hguid : a.guid = b.guid) :
    (b.apply_delta (a.delta b)).hostname = a.hostname ∧
    (b.apply_delta (a.delta b)).password = a.password ∧
    (b.apply_delta (a.delta b)).username = a.username ∧
    (b.apply_delta (a.delta b)).username_field = a.username_field ∧
    (b.apply_delta (a.delta b)).password_field = a.password_field ∧
    ((a.http_realm ≠ some ("") ∨ a.http_realm = b.http_realm) →
      (b.apply_delta (a.delta b)).http_realm = a.http_realm) ∧
    ((a.form_submit_url ≠ some ("") ∨ a.form_submit_url = b.form_submit_url) →
      (b.apply_delta (a.delta b)).form_submit_url = a.form_submit_url) ∧
    (0 < a.time_created → (b.apply_delta (a.delta b)).time_created = a.time_created) ∧
    (0 < a.time_last_used →
      (b.apply_delta (a.delta b)).time_last_used = a.time_last_used) ∧
    (0 < a.time_password_changed →
      (b.apply_delta (a.delta b)).time_password_changed = a.time_password_changed) := by
  refine ⟨?_, ?_, ?_, ?_, ?_, ?_, ?_, ?_, ?_, ?_⟩
  · by_cases h : a.hostname = b.hostname <;> simp [Address.delta, Address.apply_delta, h]
  · by_cases h : a.password = b.password <;> simp [Address.delta, Address.apply_delta, h]
  · by_cases h : a.username = b.username <;> simp [Address.delta, Address.apply_delta, h]
  · by_cases h : a.username_field = b.username_field <;>
      simp [Address.delta, Address.apply_delta, h]
  · by_cases h : a.password_field = b.password_field <;>
      simp [Address.delta, Address.apply_delta, h]
  · intro hr
    by_cases h : a.http_realm = b.http_realm
    · simp [Address.delta, Address.apply_delta, h]
    · have hne : a.http_realm ≠ some ("") := by tauto
      cases ha : a.http_realm with
      | none =>
        rw [ha] at h
        simp [Address.delta, Address.apply_delta, h, ha, String.isEmpty_iff]
      | some s =>
        rw [ha] at h
        have hs : ¬ s.isEmpty := by
          rw [String.isEmpty_iff]
          intro hcon
          rw [hcon] at ha
          exact hne ha
        simp [Address.delta, Address.apply_delta, h, ha, hs]
  · intro hr
    by_cases h : a.form_submit_url = b.form_submit_url
    · simp [Address.delta, Address.apply_delta, h]
    · have hne : a.form_submit_url ≠ some ("") := by tauto
      cases ha : a.form_submit_url with
      | none =>
        rw [ha] at h
        simp [Address.delta, Address.apply_delta, h, ha, String.isEmpty_iff]
      | some s =>
        rw [ha] at h
        have hs : ¬ s.isEmpty := by
          rw [String.isEmpty_iff]
          intro hcon
          rw [hcon] at ha
          exact hne ha
        simp [Address.delta, Address.apply_delta, h, ha, hs]
  · intro ht
    by_cases h : a.time_created = b.time_created <;>
      simp [Address.delta, Address.apply_delta, h, ht]
  · intro ht
    by_cases h : a.time_last_used = b.time_last_used <;>
      simp [Address.delta, Address.apply_delta, h, ht]
  · intro ht
    by_cases h : a.time_password_changed = b.time_password_changed <;>
      simp [Address.delta, Address.apply_delta, h, ht]

/-- Sample record used by witnesses: every field populated, positive
timestamps. -/
def recA : Address :=
  { guid := "guid-1"
    hostname := "https://a.example"
    form_submit_url := some ("https://a.example/post")
    http_realm := none
    username := "alice"
    password := "secret"
    username_field := "u"
    password_field := "p"
    time_created := 10
    time_password_changed := 20
    time_last_used := 30
    times_used := 7 }

/-- Second sample record with the same guid as `recA` and every field
different. -/
def recB : Address :=
  { guid := "guid-1"
    hostname := "https://b.example"
    form_submit_url := none
    http_realm := some ("realm")
    username := "bob"
    password := "hunter2"
    username_field := "uu"
    password_field := "pp"
    time_created := 1
    time_password_changed := 2
    time_last_used := 3
    times_used := 3 }

theorem claim_C1_witness :
    (recB.apply_delta (recA.delta recB)).hostname = recA.hostname ∧
    (recB.apply_delta (recA.delta recB)).http_realm = recA.http_realm ∧
    (recB.apply_delta (recA.delta recB)).time_created = recA.time_created := by
  have h := claim_C1 recA recB rfl
  exact ⟨h.1, h.2.2.2.2.2.1 (Or.inl (by decide)), h.2.2.2.2.2.2.2.1 (by decide)⟩

/-- Record whose `http_realm` is the present-but-empty string, the value
the sentinel encoding cannot round-trip. -/
def cexA1 : Address :=
  { guid := "g"
    hostname := "h"
    form_submit_url := none
    http_realm := some ("")
    username := ""
    password := "p"
    username_field := ""
    password_field := ""
    time_created := 0
    time_password_changed := 0
    time_last_used := 0
    times_used := 0 }

/-- Same record with `http_realm` absent. -/
def cexB1 : Address := { cexA1 with http_realm := none }

theorem claim_C1_cex :
    cexA1.guid = cexB1.guid ∧
    (cexB1.apply_delta (cexA1.delta cexB1)).http_realm ≠ cexA1.http_realm := by
  decide

/-- C2 (amended): `delta(newer, older).times_used` is the increment
`newer.times_used - older.times_used` whenever the newer record's
absolute counter is strictly positive and differs from the older one, and
0 otherwise; the emitted increment itself may be negative — the guard is
on the newer counter's value, not on the sign of the difference. -/
theorem claim_C2 (a b : Address) :
    (a.delta b).times_used =
      if 0 < a.times_used ∧ a.times_used ≠ b.times_used then
        a.times_used - b.times_used
      else 0 := rfl

/-- Record with `times_used = 1`. -/
def cexA2 : Address := { cexA1 with http_realm := none, times_used := 1 }

/-- Record with `times_used = 5`. -/
def cexB2 : Address := { cexA2 with times_used := 5 }

theorem claim_C2_cex :
    (cexA2.delta cexB2).times_used = -4 ∧
    ¬ 0 < (cexA2.delta cexB2).times_used ∧
    (cexA2.delta cexB2).times_used ≠ 0 := by decide

/-- C3: `delta(a, b)` carries a timestamp field exactly when `a`'s value
for it is strictly positive and differs from `b`'s; in particular the
field is omitted whenever `a`'s value is ≤ 0. -/
theorem claim_C3 (a b : Address) :
    ((a.delta b).time_created =
      if 0 < a.time_created ∧ a.time_created ≠ b.time_created then
        some a.time_created
      else none) ∧
    ((a.delta b).time_last_used =
      if 0 < a.time_last_used ∧ a.time_last_used ≠ b.time_last_used then
        some a.time_last_used
      else none) ∧
    ((a.delta b).time_password_changed =
      if 0 < a.time_password_changed ∧
          a.time_password_changed ≠ b.time_password_changed then
        some a.time_password_changed
      else none) ∧
    (a.time_created ≤ 0 → (a.delta b).time_created = none) ∧
    (a.time_last_used ≤ 0 → (a.delta b).time_last_used = none) ∧
    (a.time_password_changed ≤ 0 → (a.delta b).time_password_changed = none) := by
  refine ⟨rfl, rfl, rfl, ?_, ?_, ?_⟩ <;>
    intro h <;> simp [Address.delta, not_lt.mpr h]

theorem claim_C3_witness : (cexA1.delta cexB1).time_created = none :=
  (claim_C3 cexA1 cexB1).2.2.2.1 (by decide)

/-- C4: `delta(r, r)` is the empty delta — every optional slot absent and
a zero `times_used` increment — and applying it to `r` is a no-op. -/
theorem claim_C4 (r : Address) :
    r.delta r = AddressDelta.default ∧ r.apply_delta (r.delta r) = r := by
  constructor
  · simp [Address.delta, AddressDelta.default]
  · cases r
    simp [Address.delta, Address.apply_delta]

/-- C7: `check_valid` reports the first violated invariant in the fixed
priority order empty hostname, empty password, both targets present,
neither target present; it succeeds exactly when the hostname and
password are non-empty and exactly one of `form_submit_url` /
`http_realm` is set. -/
theorem claim_C7 (a : Address) :
    (a.check_valid =
      if a.hostname = "" then Except.error InvalidAddress.EmptyHostname
      else if a.password = "" then Except.error InvalidAddress.EmptyPassword
      else if a.form_submit_url.isSome = true ∧ a.http_realm.isSome = true then
        Except.error InvalidAddress.BothTargets
      else if a.form_submit_url = none ∧ a.http_realm = none then
        Except.error InvalidAddress.NoTarget
      else Except.ok ()) ∧
    (a.check_valid = Except.ok () ↔
      a.hostname ≠ "" ∧ a.password ≠ "" ∧
        (a.form_submit_url.isSome = true ↔ a.http_realm = none)) := by
  cases hf : a.form_submit_url <;> cases hr : a.http_realm <;>
    by_cases h1 : a.hostname = "" <;> by_cases h2 : a.password = "" <;>
      simp [Address.check_valid, String.isEmpty_iff, h1, h2, hf, hr]

theorem claim_C7_witness :
    Address.check_valid recA = Except.ok () ∧
    Address.check_valid cexA2 = Except.error InvalidAddress.NoTarget :=
  ⟨(claim_C7 recA).2.mpr (by decide),
   by
    have h := (claim_C7 cexA2).1
    rw [h]
    exact rfl⟩

/-- C8: timestamp decoding never fails and always yields a value ≥ 0:
`deserialize_timestamp` returns `Ok` of a non-negative number on every
input, and a missing field, an integer too large for `i64`
(18446732429235952000), a string, null, and a negative value (-30) all
decode to 0. -/
theorem claim_C8 :
    (∀ v : Option JsonValue, 0 ≤ decode_timestamp_field v) ∧
    (∀ j : JsonValue, ∃ n : Int, deserialize_timestamp j = Except.ok n ∧ 0 ≤ n) ∧
    decode_timestamp_field (some (JsonValue.num 18446732429235952000)) = 0 ∧
    decode_timestamp_field (some (JsonValue.num (-30))) = 0 ∧
    decode_timestamp_field (some (JsonValue.str ("some other garbage"))) = 0 ∧
    decode_timestamp_field (some JsonValue.null) = 0 ∧
    decode_timestamp_field none = 0 := by
  refine ⟨?_, ?_, by decide, by decide, rfl, rfl, rfl⟩
  · intro v
    cases v with
    | none => exact le_refl 0
    | some j =>
      show (0 : Int) ≤ unwrapOrZero (deserialize_timestamp j)
      exact le_max_right _ 0
  · intro j
    exact ⟨max (unwrapOrZero (i64Deserialize j)) 0, rfl, le_max_right _ 0⟩

/-- C9: setting the local or mirror slot of a reconciliation context
fails with an identity-integrity error when the slot is already occupied
or the record's guid differs from the context's guid (leaving the context
unchanged — the error branch carries no state), and succeeds storing the
record when the slot is empty and the guids agree. -/
theorem claim_C9 (s : SyncAddressData) (l : LocalAddress) (m : MirrorAddress) :
    ((s.«local».isSome = true ∨ s.guid ≠ l.address.guid) →
      ∃ e, s.set_local l = Except.error e) ∧
    (s.«local» = none → s.guid = l.address.guid →
      s.set_local l = Except.ok { s with «local» := some l }) ∧
    ((s.mirror.isSome = true ∨ s.guid ≠ m.address.guid) →
      ∃ e, s.set_mirror m = Except.error e) ∧
    (s.mirror = none → s.guid = m.address.guid →
      s.set_mirror m = Except.ok { s with mirror := some m }) := by
  refine ⟨?_, ?_, ?_, ?_⟩
  · intro h
    by_cases hs : s.«local».isSome = true
    · exact ⟨PanicKind.slotAlreadySet, by simp [SyncAddressData.set_local, hs]⟩
    · have hg : s.guid ≠ l.address.guid := by tauto
      exact ⟨PanicKind.guidMismatch, by simp [SyncAddressData.set_local, hs, hg]⟩
  · intro h1 h2
    simp [SyncAddressData.set_local, h1, h2]
  · intro h
    by_cases hs : s.mirror.isSome = true
    · exact ⟨PanicKind.slotAlreadySet, by simp [SyncAddressData.set_mirror, hs]⟩
    · have hg : s.guid ≠ m.address.guid := by tauto
      exact ⟨PanicKind.guidMismatch, by simp [SyncAddressData.set_mirror, hs, hg]⟩
  · intro h1 h2
    simp [SyncAddressData.set_mirror, h1, h2]

/-- Fresh reconciliation context for guid-1 with both slots empty and a
tombstone inbound snapshot. -/
def ctxEx : SyncAddressData :=
  { guid := "guid-1", «local» := none, mirror := none, inbound := (none, 0) }

/-- Local view wrapping `recA` (guid-1). -/
def localEx : LocalAddress :=
  { address := recA, sync_status := SyncStatus.New, is_deleted := false,
    local_modified := 0 }

/-- Mirror view whose record carries a different guid than the context. -/
def mirrorBad : MirrorAddress :=
  { address := { recA with guid := "guid-2" }, is_overridden := false,
    server_modified := 0 }

theorem claim_C9_witness :
    ctxEx.set_local localEx = Except.ok { ctxEx with «local» := some localEx } ∧
    (∃ e, ctxEx.set_mirror mirrorBad = Except.error e) :=
  ⟨(claim_C9 ctxEx localEx mirrorBad).2.1 rfl rfl,
   (claim_C9 ctxEx localEx mirrorBad).2.2.1 (Or.inr (by decide))⟩
